import Mathlib

/-!
Verification of the iroh start-command lifecycle orchestrator
(`src/iroh/src/commands/start.rs`): persisted run-status tracking,
RPC-endpoint binding with the address-in-use fallback, node launch
sequencing, and the biased shutdown race.

External effects (the persisted `RpcStatus` record, the filesystem, the
OS socket bind, the node, the caller-supplied command, the interrupt
signal) are modelled by an explicit environment `Env` whose fields give
the outcome of each external operation.  Each orchestrator function is
embedded as a pure function returning its result together with the
chronological trace of effect events it performed, so that claims about
"no side effects", "exactly once" and ordering become statements about
the trace.

Asynchrony: completion of the three race sources is modelled by
optional completion times (`none` = never completes), and
`tokio::select! { biased; ... }` (start.rs lines 142-161) resolves to
the source with the earliest completion time, the listed order
(interrupt, command task, node) breaking ties.

Plumbing deliberately kept out of the model, none of which stores or
clears run state, binds a socket, or touches the race: the progress
spinner and welcome message (UI), `eprintln!` of the request token,
the metrics server (behind a cfg feature), `path_with_env` /
`iroh_data_root` path computation (ambient configuration, modelled as
an injected location), and `make_server_config` / the
`QuinnServerEndpoint` wrapper / `local_addr` (modelled as the identity
on the bound endpoint, which is represented by its bound local port).
-/

/-- RpcStatus as used by start.rs (declared in commands/rpc.rs): the
persisted run status is either `Stopped` or `Running port`.  Ports are
u16 in the source; modelled as `Nat`, no arithmetic is performed on
them. -/
inductive RpcStatus where
  | Stopped : RpcStatus
  | Running (port : Nat) : RpcStatus
deriving DecidableEq

/-- RunType from start.rs lines 36-42. -/
inductive RunType where
  | SingleCommand : RunType
  | UntilStopped : RunType
deriving DecidableEq

/-- Kind of an OS I/O error, as inspected by `err.kind()` at start.rs
line 257.  Only `AddrInUse` is distinguished by the code; every other
kind is represented by `permissionDenied` and `other code`. -/
inductive IoErrorKind where
  | addrInUse : IoErrorKind
  | permissionDenied : IoErrorKind
  | other (code : Nat) : IoErrorKind
deriving DecidableEq

/-- Errors flowing through the orchestrator (`anyhow::Error` in the
source, a single dynamic error type): an OS I/O error, the
`bail!("iroh is already running on port {}", port)` of start.rs line
178 (modelled as a constructor carrying the named port), or an opaque
error produced by an external collaborator (storage, node, command,
status store), distinguished by a numeric code. -/
inductive Error where
  | io (k : IoErrorKind) : Error
  | alreadyRunning (port : Nat) : Error
  | external (code : Nat) : Error
deriving DecidableEq

/-- Network interface a bind is attempted on.  start.rs only ever
binds `Ipv4Addr::LOCALHOST` (lines 245 and 265), so the loopback
interface is the sole inhabitant; recording it in every bind event
makes "retries on the same loopback interface" a provable statement. -/
inductive Iface where
  | loopback : Iface
deriving DecidableEq

/-- Storage directories created by start_node (start.rs lines 189-190):
the complete and the incomplete flat-store directories
(`BaoFlatStoreComplete` / `BaoFlatStorePartial`). -/
inductive DirKind where
  | baoComplete : DirKind
  | baoIncomplete : DirKind
deriving DecidableEq

/-- Observable effect events, in chronological order of a trace. -/
inductive Event where
  | load : Event
  | createDir (d : DirKind) : Event
  | loadBao : Event
  | openDocs : Event
  | getKey : Event
  | bindAttempt (i : Iface) (port : Nat) : Event
  | warnPortInUse (port : Nat) : Event
  | storeStatus (port : Nat) : Event
  | spawnNode : Event
  | spawnCommandTask : Event
  | abortCommand : Event
  | shutdownNode : Event
  | awaitNode : Event
  | clearStatus : Event
deriving DecidableEq

/-- Decidable equality for `Except`, needed to evaluate the model on
concrete inputs. -/
instance exceptDecEq {E A : Type} [DecidableEq E] [DecidableEq A] :
    DecidableEq (Except E A) := fun x y =>
  match x, y with
  | Except.ok a, Except.ok b =>
    if h : a = b then Decidable.isTrue (by rw [h])
    else Decidable.isFalse (fun hh => h (by cases hh; rfl))
  | Except.ok _, Except.error _ => Decidable.isFalse (fun hh => Except.noConfusion hh)
  | Except.error _, Except.ok _ => Decidable.isFalse (fun hh => Except.noConfusion hh)
  | Except.error e, Except.error f =>
    if h : e = f then Decidable.isTrue (by rw [h])
    else Decidable.isFalse (fun hh => h (by cases hh; rfl))

/-- Result of a whole session: either it returns a value, or it
suspends forever (possible when none of the three race sources ever
completes). -/
inductive Outcome where
  | result (r : Except Error Unit) : Outcome
  | hangs : Outcome
deriving DecidableEq

/-- The three completion sources of the shutdown race, in the order the
`tokio::select!` block lists them (start.rs lines 142-161). -/
inductive RaceSource where
  | interrupt : RaceSource
  | command : RaceSource
  | node : RaceSource
deriving DecidableEq

/-- Environment supplying the outcome of every external operation the
orchestrator performs.  Function-typed fields receive the arguments the
source passes; `Option Nat` fields are completion times of the race
sources (`none` = never completes). -/
structure Env where
  /-- Result of `RpcStatus::load(iroh_data_root()?)` (start.rs line 175). -/
  loadStatus : Except Error RpcStatus
  /-- Result of `create_dir_all(&blob_dir)` (line 189). -/
  createCompleteDir : Except Error Unit
  /-- Result of `create_dir_all(&partial_blob_dir)` (line 190). -/
  createIncompleteDir : Except Error Unit
  /-- Result of `iroh_bytes::store::flat::Store::load` (lines 191-196). -/
  loadBaoStore : Except Error Unit
  /-- Result of `iroh_sync::store::fs::Store::new` (line 198). -/
  openDocStore : Except Error Unit
  /-- Result of `get_secret_key` (line 200). -/
  getSecretKey : Except Error Unit
  /-- Result of `config.derp_map()` (line 115). -/
  derpMap : Except Error Unit
  /-- Result of `quinn::Endpoint::server` on the given interface and
  port: the bound local port on success, the I/O error kind on
  failure (lines 253 and 263-266). -/
  bind : Iface → Nat → Except IoErrorKind Nat
  /-- Result of `RpcStatus::store(iroh_data_root()?, port)` (line 278). -/
  storeStatus : Nat → Except Error Unit
  /-- Result of `RpcStatus::clear(iroh_data_root()?)` (line 98). -/
  clearStatus : Except Error Unit
  /-- Result of `Node::builder(..).spawn()` (lines 207-216). -/
  spawnNode : Except Error Unit
  /-- Completion of `tokio::signal::ctrl_c()`: the time at which the
  future resolves together with its `io::Result` value, or `none` if
  no interrupt (and no listener failure) ever occurs. -/
  interruptResult : Option (Nat × Except IoErrorKind Unit)
  /-- Time at which `command(client).await` itself completes. -/
  cmdTime : Option Nat
  /-- Result of `command(client).await` (line 127). -/
  cmdResult : Except Error Unit
  /-- Time at which the node future completes on its own. -/
  nodeTime : Option Nat
  /-- Value of the node future when it completes on its own (line 157). -/
  nodeSelfResult : Except Error Unit
  /-- Result of `node.await` after `node.shutdown()` was requested
  (lines 148 and 153). -/
  nodeAwaitAfterShutdown : Except Error Unit

/-- Comparison of optional completion times, `none` meaning "never"
(infinitely late): `oleB a b` holds when source `a` completes no later
than source `b`. -/
def oleB : Option Nat → Option Nat → Bool
  | none, none => true
  | none, some _ => false
  | some _, none => true
  | some a, some b => decide (a ≤ b)

/-- Winner of `tokio::select! { biased; ... }` over the three sources
(start.rs lines 142-161): with `biased`, the branches are polled in
listed order, so the race resolves to the source with the earliest
completion time, and when several are simultaneously ready the earliest
listed branch (interrupt, then command task, then node) wins.  `none`
means no source ever completes and the select suspends forever. -/
def raceWinner (ti tc tn : Option Nat) : Option RaceSource :=
  if ti.isSome && oleB ti tc && oleB ti tn then some RaceSource.interrupt
  else if tc.isSome && oleB tc ti && oleB tc tn then some RaceSource.command
  else if tn.isSome && oleB tn ti && oleB tn tc then some RaceSource.node
  else none

/-- Completion time of the spawned command task (start.rs lines
125-139): it completes when the caller-supplied command does, except
that after a successful command under `UntilStopped` it enters
`futures::future::pending().await` and never completes. -/
def commandTaskTime (run_type : RunType) (cmdTime : Option Nat)
    (cmdResult : Except Error Unit) : Option Nat :=
  match cmdTime with
  | none => none
  | some t =>
    match cmdResult with
    | Except.error _ => some t
    | Except.ok _ =>
      match run_type with
      | RunType.UntilStopped => none
      | RunType.SingleCommand => some t

/-- Completion time of the `ctrl_c()` future; the branch pattern
`_ = tokio::signal::ctrl_c()` (line 145) discards the value, so only
the time feeds the race. -/
def interruptTime (env : Env) : Option Nat :=
  Option.map Prod.fst env.interruptResult

/-- Sequencing of two traced fallible steps: on error the first step's
result and trace are returned (the `?` operator); on success the second
step runs and the traces concatenate. -/
def stepThen {A B : Type} (x : Except Error A × List Event)
    (f : A → Except Error B × List Event) : Except Error B × List Event :=
  match x.1 with
  | Except.error e => (Except.error e, x.2)
  | Except.ok a => ((f a).1, x.2 ++ (f a).2)

/-- make_rpc_endpoint (start.rs lines 241-281): bind the preferred port
on loopback; exactly when that fails with `AddrInUse`, warn and retry
once on loopback port 0; then persist the actually bound local port via
`RpcStatus::store`.  The endpoint is represented by its bound local
port, which is exactly what `local_addr()?.port()` reads back at line
273. -/
def make_rpc_endpoint (env : Env) (rpc_port : Nat) :
    Except Error Nat × List Event :=
  let first :=
    match env.bind Iface.loopback rpc_port with
    | Except.ok ep => (Except.ok ep, [Event.bindAttempt Iface.loopback rpc_port])
    | Except.error e =>
      if e = IoErrorKind.addrInUse then
        match env.bind Iface.loopback 0 with
        | Except.ok ep =>
          (Except.ok ep,
           [Event.bindAttempt Iface.loopback rpc_port,
            Event.warnPortInUse rpc_port,
            Event.bindAttempt Iface.loopback 0])
        | Except.error e2 =>
          (Except.error (Error.io e2),
           [Event.bindAttempt Iface.loopback rpc_port,
            Event.warnPortInUse rpc_port,
            Event.bindAttempt Iface.loopback 0])
      else
        (Except.error (Error.io e), [Event.bindAttempt Iface.loopback rpc_port])
  match first.1 with
  | Except.error e => (Except.error e, first.2)
  | Except.ok ep =>
    match env.storeStatus ep with
    | Except.ok _ => (Except.ok ep, first.2 ++ [Event.storeStatus ep])
    | Except.error e => (Except.error e, first.2 ++ [Event.storeStatus ep])

/-- start_node (start.rs lines 165-217): load the persisted RpcStatus
and bail with `alreadyRunning port` if it is `Running port`; otherwise
create the two store directories, load the blob store, open the doc
store, acquire the secret key, make the RPC endpoint (which persists
the bound port), and finally spawn the node. -/
def start_node (env : Env) (rpc_port : Nat) : Except Error Unit × List Event :=
  stepThen (env.loadStatus, [Event.load]) (fun status =>
    match status with
    | RpcStatus.Running port => (Except.error (Error.alreadyRunning port), [])
    | RpcStatus.Stopped =>
      stepThen (env.createCompleteDir, [Event.createDir DirKind.baoComplete]) (fun _ =>
      stepThen (env.createIncompleteDir, [Event.createDir DirKind.baoIncomplete]) (fun _ =>
      stepThen (env.loadBaoStore, [Event.loadBao]) (fun _ =>
      stepThen (env.openDocStore, [Event.openDocs]) (fun _ =>
      stepThen (env.getSecretKey, [Event.getKey]) (fun _ =>
      stepThen (make_rpc_endpoint env rpc_port) (fun _ =>
      (env.spawnNode, [Event.spawnNode]))))))))

/-- run_with_command_inner (start.rs lines 103-163): read the derp map
from the config, launch the node, spawn the command task, then run the
biased shutdown race.  Interrupt branch (lines 145-149): abort the
command task, request shutdown, await the node, propagate its error.
Command branch (lines 151-155): request shutdown, await the node
discarding its error, propagate the command task's result.  Node branch
(lines 157-160): abort the command task, propagate the node's own
result. -/
def run_with_command_inner (env : Env) (rpc_port : Nat) (run_type : RunType) :
    Outcome × List Event :=
  match env.derpMap with
  | Except.error e => (Outcome.result (Except.error e), [])
  | Except.ok _ =>
    let s := start_node env rpc_port
    match s.1 with
    | Except.error e => (Outcome.result (Except.error e), s.2)
    | Except.ok _ =>
      let t := s.2 ++ [Event.spawnCommandTask]
      match raceWinner (interruptTime env)
          (commandTaskTime run_type env.cmdTime env.cmdResult) env.nodeTime with
      | none => (Outcome.hangs, t)
      | some RaceSource.interrupt =>
        (Outcome.result env.nodeAwaitAfterShutdown,
         t ++ [Event.abortCommand, Event.shutdownNode, Event.awaitNode])
      | some RaceSource.command =>
        (Outcome.result env.cmdResult,
         t ++ [Event.shutdownNode, Event.awaitNode])
      | some RaceSource.node =>
        (Outcome.result env.nodeSelfResult,
         t ++ [Event.abortCommand])

/-- run_with_command (start.rs lines 75-101): run the inner session,
then `RpcStatus::clear(iroh_data_root()?).await?` and return the inner
result.  The `?` on the clear call means a clear failure is returned to
the caller in place of the inner result. -/
def run_with_command (env : Env) (rpc_port : Nat) (run_type : RunType) :
    Outcome × List Event :=
  let r := run_with_command_inner env rpc_port run_type
  match r.1 with
  | Outcome.hangs => (Outcome.hangs, r.2)
  | Outcome.result res =>
    match env.clearStatus with
    | Except.ok _ => (Outcome.result res, r.2 ++ [Event.clearStatus])
    | Except.error e => (Outcome.result (Except.error e), r.2 ++ [Event.clearStatus])

/-- Ports of the bind attempts recorded in a trace, with the interface
each was made on, in order. -/
def bindAttempts (t : List Event) : List (Iface × Nat) :=
  t.filterMap (fun e =>
    match e with
    | Event.bindAttempt i p => some (i, p)
    | _ => none)

/-- Ports passed to `RpcStatus::store` in a trace, in order. -/
def storePorts (t : List Event) : List Nat :=
  t.filterMap (fun e =>
    match e with
    | Event.storeStatus p => some p
    | _ => none)

/-- The control listener ends up bound to local port `q` when asked for
preferred port `p`: either the direct bind succeeded, or it failed with
`AddrInUse` and the ephemeral retry on port 0 succeeded. -/
def boundPort (env : Env) (p q : Nat) : Prop :=
  env.bind Iface.loopback p = Except.ok q ∨
  (env.bind Iface.loopback p = Except.error IoErrorKind.addrInUse ∧
   env.bind Iface.loopback 0 = Except.ok q)

/-- Completion time of a given race source. -/
def srcTime (ti tc tn : Option Nat) : RaceSource → Option Nat
  | RaceSource.interrupt => ti
  | RaceSource.command => tc
  | RaceSource.node => tn

/-- Bind oracle that always succeeds: a request for port 0 gets the
OS-assigned port 5000, any other request gets the requested port. -/
def okBind : Iface → Nat → Except IoErrorKind Nat :=
  fun _ q => if q = 0 then Except.ok 5000 else Except.ok q

/-- Baseline environment: every external operation succeeds, the
caller-supplied command succeeds at time 1, no interrupt arrives, and
the node never terminates on its own. -/
def envA : Env :=
  { loadStatus := Except.ok RpcStatus.Stopped
    createCompleteDir := Except.ok ()
    createIncompleteDir := Except.ok ()
    loadBaoStore := Except.ok ()
    openDocStore := Except.ok ()
    getSecretKey := Except.ok ()
    derpMap := Except.ok ()
    bind := okBind
    storeStatus := fun _ => Except.ok ()
    clearStatus := Except.ok ()
    spawnNode := Except.ok ()
    interruptResult := none
    cmdTime := some 1
    cmdResult := Except.ok ()
    nodeTime := none
    nodeSelfResult := Except.ok ()
    nodeAwaitAfterShutdown := Except.ok () }

/-- Environment where the session body succeeds but the final
`RpcStatus::clear` fails with the opaque error 7. -/
def envClearFail : Env := { envA with clearStatus := Except.error (Error.external 7) }

/-- Environment whose persisted status is `Running 4919`. -/
def envRunning : Env := { envA with loadStatus := Except.ok (RpcStatus.Running 4919) }

/-- Environment where the preferred port is occupied (`AddrInUse`) and
the ephemeral retry binds port 5000. -/
def envInUse : Env :=
  { envA with bind := fun _ q =>
      if q = 0 then Except.ok 5000 else Except.error IoErrorKind.addrInUse }

/-- Environment where every bind fails with a permission error. -/
def envBindDenied : Env :=
  { envA with bind := fun _ _ => Except.error IoErrorKind.permissionDenied }

/-- Environment where an interrupt arrives at time 0, before the
command (which would complete at time 5) and with the node never
terminating on its own. -/
def envInterrupt : Env :=
  { envA with interruptResult := some (0, Except.ok ()), cmdTime := some 5 }

/-- Environment identical to `envInterrupt` except that the interrupt
listener itself fails at time 0 instead of delivering an interrupt. -/
def envInterruptErr : Env :=
  { envA with
    interruptResult := some (0, Except.error (IoErrorKind.other 3))
    cmdTime := some 5 }

/-- Environment where the command wins the race while the node's
post-shutdown await fails: the command's success must still be the
session outcome. -/
def envCmdNodeErr : Env :=
  { envA with nodeAwaitAfterShutdown := Except.error (Error.external 9) }

/-- Sequencing of an erroring first step short-circuits. -/
theorem stepThen_error {A B : Type} (e : Error) (t : List Event)
    (f : A → Except Error B × List Event) :
    stepThen (Except.error e, t) f = (Except.error e, t) := rfl

/-- Sequencing after a successful first step appends the traces. -/
theorem stepThen_ok {A B : Type} (a : A) (t : List Event)
    (f : A → Except Error B × List Event) :
    stepThen (Except.ok a, t) f = ((f a).1, t ++ (f a).2) := rfl

/-- An event absent from both steps' traces is absent from the
sequenced trace. -/
theorem stepThen_not_mem {A B : Type} (ev : Event)
    (x : Except Error A × List Event) (f : A → Except Error B × List Event)
    (hx : ev ∉ x.2) (hf : ∀ a, ev ∉ (f a).2) : ev ∉ (stepThen x f).2 := by
  unfold stepThen
  cases h : x.1 with
  | error e => simpa using hx
  | ok a =>
    intro hmem
    rcases List.mem_append.mp hmem with h1 | h2
    · exact hx h1
    · exact hf a h2

/-- make_rpc_endpoint never touches `RpcStatus::clear`. -/
theorem clear_not_mem_make_rpc (env : Env) (p : Nat) :
    Event.clearStatus ∉ (make_rpc_endpoint env p).2 := by
  unfold make_rpc_endpoint
  cases h1 : env.bind Iface.loopback p with
  | ok ep => cases h2 : env.storeStatus ep <;> simp [h1, h2]
  | error e =>
    by_cases he : e = IoErrorKind.addrInUse
    · subst he
      cases h1b : env.bind Iface.loopback 0 with
      | ok ep => cases h2 : env.storeStatus ep <;> simp [h1, h1b, h2]
      | error e2 => simp [h1, h1b]
    · simp [h1, he]

/-- start_node never touches `RpcStatus::clear`. -/
theorem clear_not_mem_start_node (env : Env) (p : Nat) :
    Event.clearStatus ∉ (start_node env p).2 := by
  unfold start_node
  apply stepThen_not_mem
  · simp
  · intro status
    cases status with
    | Running port => simp
    | Stopped =>
      apply stepThen_not_mem
      · simp
      · intro _
        apply stepThen_not_mem
        · simp
        · intro _
          apply stepThen_not_mem
          · simp
          · intro _
            apply stepThen_not_mem
            · simp
            · intro _
              apply stepThen_not_mem
              · simp
              · intro _
                apply stepThen_not_mem
                · exact clear_not_mem_make_rpc env p
                · intro _
                  simp

/-- The inner session body never touches `RpcStatus::clear`. -/
theorem clear_not_mem_inner (env : Env) (p : Nat) (rt : RunType) :
    Event.clearStatus ∉ (run_with_command_inner env p rt).2 := by
  unfold run_with_command_inner
  cases hd : env.derpMap with
  | error e => simp [hd]
  | ok _ =>
    cases hs : (start_node env p).1 with
    | error e =>
      simp only [hd, hs]
      exact clear_not_mem_start_node env p
    | ok _ =>
      cases hw : raceWinner (interruptTime env)
          (commandTaskTime rt env.cmdTime env.cmdResult) env.nodeTime with
      | none =>
        simp only [hd, hs, hw]
        intro hmem
        rcases List.mem_append.mp hmem with h1 | h2
        · exact clear_not_mem_start_node env p h1
        · simp at h2
      | some w =>
        cases w <;>
          · simp only [hd, hs, hw]
            intro hmem
            rcases List.mem_append.mp hmem with h1 | h2
            · rcases List.mem_append.mp h1 with h1a | h1b
              · exact clear_not_mem_start_node env p h1a
              · simp at h1b
            · simp at h2

/-- C1 (counterexample): the claim that the value returned by
run_with_command is always the inner session outcome is false — in
`envClearFail` the inner session succeeds but `RpcStatus::clear` fails
with error 7, and run_with_command returns the clear error (line 98's
`?`), replacing the session outcome. -/
theorem run_with_command_clear_error_counterexample :
    (run_with_command_inner envClearFail 4919 RunType.SingleCommand).1 =
      Outcome.result (Except.ok ()) ∧
    (run_with_command envClearFail 4919 RunType.SingleCommand).1 =
      Outcome.result (Except.error (Error.external 7)) ∧
    (run_with_command envClearFail 4919 RunType.SingleCommand).1 ≠
      (run_with_command_inner envClearFail 4919 RunType.SingleCommand).1 := by
  decide

/-- C1 (amended): the value returned by run_with_command is the inner
session outcome (the race's result, or the launch failure) when the
final `RpcStatus::clear` succeeds; when clear fails, its error is
propagated to the caller and replaces the inner outcome. -/
theorem run_with_command_result (env : Env) (p : Nat) (rt : RunType)
    (r : Except Error Unit)
    (hr : (run_with_command_inner env p rt).1 = Outcome.result r) :
    (env.clearStatus = Except.ok () →
      (run_with_command env p rt).1 = Outcome.result r) ∧
    (∀ e, env.clearStatus = Except.error e →
      (run_with_command env p rt).1 = Outcome.result (Except.error e)) := by
  constructor
  · intro hc
    unfold run_with_command
    simp [hr, hc]
  · intro e hc
    unfold run_with_command
    simp [hr, hc]

/-- C1 (witness for the amended claim): in `envClearFail` the inner
session succeeds and clear fails with error 7, so run_with_command
returns error 7. -/
theorem run_with_command_result_witness :
    (run_with_command envClearFail 4919 RunType.SingleCommand).1 =
      Outcome.result (Except.error (Error.external 7)) :=
  (run_with_command_result envClearFail 4919 RunType.SingleCommand
    (Except.ok ()) (by decide)).2 (Error.external 7) (by decide)

/-- C2: whenever the inner session body finishes (launch failure or any
race branch, with or without error), `RpcStatus::clear` executes
exactly once, strictly after every event of the inner session body:
the full trace is the inner trace followed by the clear event, and the
inner trace itself never contains a clear. -/
theorem clear_exactly_once_after_inner (env : Env) (p : Nat) (rt : RunType)
    (h : (run_with_command_inner env p rt).1 ≠ Outcome.hangs) :
    (run_with_command env p rt).2 =
      (run_with_command_inner env p rt).2 ++ [Event.clearStatus] ∧
    Event.clearStatus ∉ (run_with_command_inner env p rt).2 := by
  constructor
  · unfold run_with_command
    cases ho : (run_with_command_inner env p rt).1 with
    | hangs => exact absurd ho h
    | result res => cases hc : env.clearStatus <;> simp [ho, hc]
  · exact clear_not_mem_inner env p rt

/-- C2 (witness): in the baseline all-succeeding single-command
session the body finishes, and clear is the unique final event. -/
theorem clear_exactly_once_after_inner_witness :
    (run_with_command_inner envA 4919 RunType.SingleCommand).1 ≠ Outcome.hangs ∧
    ((run_with_command envA 4919 RunType.SingleCommand).2 =
        (run_with_command_inner envA 4919 RunType.SingleCommand).2 ++
          [Event.clearStatus] ∧
      Event.clearStatus ∉ (run_with_command_inner envA 4919 RunType.SingleCommand).2) :=
  ⟨by decide, clear_exactly_once_after_inner envA 4919 RunType.SingleCommand (by decide)⟩

/-- C3: when the persisted status loads as `Running q`, start_node
fails immediately with the already-running error naming port `q`, and
its whole trace is the single load event — no directory creation, no
bind attempt, no store, no clear. -/
theorem start_node_already_running (env : Env) (p q : Nat)
    (h : env.loadStatus = Except.ok (RpcStatus.Running q)) :
    start_node env p = (Except.error (Error.alreadyRunning q), [Event.load]) := by
  unfold start_node
  simp [stepThen, h]

/-- C3 (witness): with persisted `Running 4919`, start_node returns
the already-running error for port 4919 having only loaded. -/
theorem start_node_already_running_witness :
    envRunning.loadStatus = Except.ok (RpcStatus.Running 4919) ∧
    start_node envRunning 1234 =
      (Except.error (Error.alreadyRunning 4919), [Event.load]) :=
  ⟨by decide, start_node_already_running envRunning 1234 4919 (by decide)⟩

/-- C4: make_rpc_endpoint first attempts to bind the preferred port on
loopback; on success it makes no other bind attempt and emits no
warning; exactly when that bind fails with `AddrInUse` it warns and
retries exactly once on loopback port 0 (whose failure is then
propagated); a first-bind failure of any other kind is returned
immediately with no retry and no warning. -/
theorem make_rpc_endpoint_retry_policy (env : Env) (p : Nat) :
    (∀ q, env.bind Iface.loopback p = Except.ok q →
       bindAttempts (make_rpc_endpoint env p).2 = [(Iface.loopback, p)] ∧
       (∀ r, Event.warnPortInUse r ∉ (make_rpc_endpoint env p).2)) ∧
    (env.bind Iface.loopback p = Except.error IoErrorKind.addrInUse →
       bindAttempts (make_rpc_endpoint env p).2 =
         [(Iface.loopback, p), (Iface.loopback, 0)] ∧
       Event.warnPortInUse p ∈ (make_rpc_endpoint env p).2 ∧
       (∀ e2, env.bind Iface.loopback 0 = Except.error e2 →
          (make_rpc_endpoint env p).1 = Except.error (Error.io e2))) ∧
    (∀ e, env.bind Iface.loopback p = Except.error e → e ≠ IoErrorKind.addrInUse →
       (make_rpc_endpoint env p).1 = Except.error (Error.io e) ∧
       bindAttempts (make_rpc_endpoint env p).2 = [(Iface.loopback, p)] ∧
       (∀ r, Event.warnPortInUse r ∉ (make_rpc_endpoint env p).2)) := by
  refine ⟨?_, ?_, ?_⟩
  · intro q hq
    cases h2 : env.storeStatus q <;>
      simp [make_rpc_endpoint, hq, h2, bindAttempts]
  · intro hin
    cases h1b : env.bind Iface.loopback 0 with
    | ok q =>
      cases h2 : env.storeStatus q <;>
        simp [make_rpc_endpoint, hin, h1b, h2, bindAttempts]
    | error e2 =>
      simp [make_rpc_endpoint, hin, h1b, bindAttempts]
  · intro e he hne
    simp [make_rpc_endpoint, he, hne, bindAttempts]

/-- C4 (witness): with port 4919 occupied and the ephemeral retry
succeeding, the bind attempts are exactly 4919 then 0, both on
loopback, with the warning emitted; with a permission error the
failure is returned directly. -/
theorem make_rpc_endpoint_retry_policy_witness :
    bindAttempts (make_rpc_endpoint envInUse 4919).2 =
      [(Iface.loopback, 4919), (Iface.loopback, 0)] ∧
    Event.warnPortInUse 4919 ∈ (make_rpc_endpoint envInUse 4919).2 ∧
    (make_rpc_endpoint envBindDenied 4919).1 =
      Except.error (Error.io IoErrorKind.permissionDenied) :=
  ⟨((make_rpc_endpoint_retry_policy envInUse 4919).2.1 (by decide)).1,
   ((make_rpc_endpoint_retry_policy envInUse 4919).2.1 (by decide)).2.1,
   ((make_rpc_endpoint_retry_policy envBindDenied 4919).2.2
      IoErrorKind.permissionDenied (by decide) (by decide)).1⟩

/-- storePorts distributes over trace concatenation. -/
theorem storePorts_append (t1 t2 : List Event) :
    storePorts (t1 ++ t2) = storePorts t1 ++ storePorts t2 := by
  simp [storePorts]

/-- Sequencing preserves the absence of store events. -/
theorem storePorts_stepThen_nil {A B : Type} (x : Except Error A × List Event)
    (f : A → Except Error B × List Event) (hx : storePorts x.2 = [])
    (hf : ∀ a, storePorts (f a).2 = []) : storePorts (stepThen x f).2 = [] := by
  unfold stepThen
  cases h : x.1 with
  | error e => simpa using hx
  | ok a =>
    simp only [h]
    simp [storePorts_append, hx, hf]

/-- C5: a successful make_rpc_endpoint stores exactly the actually
bound local port (the preferred port, or the ephemeral one when the
fallback was taken); when binding fails no port is ever stored in the
whole launch; and a successful launch's trace stores the bound port
strictly before the node-construction event. -/
theorem stored_port_is_bound_port (env : Env) (p : Nat) :
    (∀ q, (make_rpc_endpoint env p).1 = Except.ok q →
       storePorts (make_rpc_endpoint env p).2 = [q] ∧ boundPort env p q) ∧
    ((∀ q, ¬ boundPort env p q) → storePorts (start_node env p).2 = []) ∧
    ((start_node env p).1 = Except.ok () →
       ∃ t1 q, (start_node env p).2 = t1 ++ [Event.storeStatus q, Event.spawnNode] ∧
         boundPort env p q ∧ (∀ r, Event.storeStatus r ∉ t1)) := by
  refine ⟨?_, ?_, ?_⟩
  · intro q hq
    cases h1 : env.bind Iface.loopback p with
    | ok ep =>
      cases h2 : env.storeStatus ep with
      | ok _ =>
        have hepq : ep = q := by
          simp [make_rpc_endpoint, h1, h2] at hq
          exact hq
        subst hepq
        exact ⟨by simp [make_rpc_endpoint, h1, h2, storePorts], Or.inl h1⟩
      | error e => simp [make_rpc_endpoint, h1, h2] at hq
    | error e =>
      by_cases hee : e = IoErrorKind.addrInUse
      · subst hee
        cases h1b : env.bind Iface.loopback 0 with
        | ok ep =>
          cases h2 : env.storeStatus ep with
          | ok _ =>
            have hepq : ep = q := by
              simp [make_rpc_endpoint, h1, h1b, h2] at hq
              exact hq
            subst hepq
            exact ⟨by simp [make_rpc_endpoint, h1, h1b, h2, storePorts],
              Or.inr ⟨h1, h1b⟩⟩
          | error e2 => simp [make_rpc_endpoint, h1, h1b, h2] at hq
        | error e2 => simp [make_rpc_endpoint, h1, h1b] at hq
      · simp [make_rpc_endpoint, h1, hee] at hq
  · intro hb
    have hmk : storePorts (make_rpc_endpoint env p).2 = [] := by
      cases h1 : env.bind Iface.loopback p with
      | ok q => exact absurd (Or.inl h1) (hb q)
      | error e =>
        by_cases hee : e = IoErrorKind.addrInUse
        · subst hee
          cases h1b : env.bind Iface.loopback 0 with
          | ok q => exact absurd (Or.inr ⟨h1, h1b⟩) (hb q)
          | error e2 => simp [make_rpc_endpoint, h1, h1b, storePorts]
        · simp [make_rpc_endpoint, h1, hee, storePorts]
    unfold start_node
    apply storePorts_stepThen_nil
    · simp [storePorts]
    · intro status
      cases status with
      | Running port => simp [storePorts]
      | Stopped =>
        apply storePorts_stepThen_nil
        · simp [storePorts]
        · intro _
          apply storePorts_stepThen_nil
          · simp [storePorts]
          · intro _
            apply storePorts_stepThen_nil
            · simp [storePorts]
            · intro _
              apply storePorts_stepThen_nil
              · simp [storePorts]
              · intro _
                apply storePorts_stepThen_nil
                · simp [storePorts]
                · intro _
                  apply storePorts_stepThen_nil
                  · exact hmk
                  · intro _
                    simp [storePorts]
  · intro hs
    cases hL : env.loadStatus with
    | error e => simp [start_node, stepThen, hL] at hs
    | ok st =>
      cases st with
      | Running port => simp [start_node, stepThen, hL] at hs
      | Stopped =>
        cases hC : env.createCompleteDir with
        | error e => simp [start_node, stepThen, hL, hC] at hs
        | ok _ =>
          cases hI : env.createIncompleteDir with
          | error e => simp [start_node, stepThen, hL, hC, hI] at hs
          | ok _ =>
            cases hB : env.loadBaoStore with
            | error e => simp [start_node, stepThen, hL, hC, hI, hB] at hs
            | ok _ =>
              cases hD : env.openDocStore with
              | error e => simp [start_node, stepThen, hL, hC, hI, hB, hD] at hs
              | ok _ =>
                cases hK : env.getSecretKey with
                | error e => simp [start_node, stepThen, hL, hC, hI, hB, hD, hK] at hs
                | ok _ =>
                  cases h1 : env.bind Iface.loopback p with
                  | ok ep =>
                    cases h2 : env.storeStatus ep with
                    | error e =>
                      simp [start_node, stepThen, make_rpc_endpoint,
                        hL, hC, hI, hB, hD, hK, h1, h2] at hs
                    | ok _ =>
                      refine ⟨[Event.load, Event.createDir DirKind.baoComplete,
                        Event.createDir DirKind.baoIncomplete, Event.loadBao,
                        Event.openDocs, Event.getKey,
                        Event.bindAttempt Iface.loopback p], ep, ?_, Or.inl h1, ?_⟩
                      · simp [start_node, stepThen, make_rpc_endpoint,
                          hL, hC, hI, hB, hD, hK, h1, h2]
                      · intro r
                        simp
                  | error e =>
                    by_cases hee : e = IoErrorKind.addrInUse
                    · subst hee
                      cases h1b : env.bind Iface.loopback 0 with
                      | ok ep =>
                        cases h2 : env.storeStatus ep with
                        | error e2 =>
                          simp [start_node, stepThen, make_rpc_endpoint,
                            hL, hC, hI, hB, hD, hK, h1, h1b, h2] at hs
                        | ok _ =>
                          refine ⟨[Event.load, Event.createDir DirKind.baoComplete,
                            Event.createDir DirKind.baoIncomplete, Event.loadBao,
                            Event.openDocs, Event.getKey,
                            Event.bindAttempt Iface.loopback p,
                            Event.warnPortInUse p,
                            Event.bindAttempt Iface.loopback 0], ep, ?_,
                            Or.inr ⟨h1, h1b⟩, ?_⟩
                          · simp [start_node, stepThen, make_rpc_endpoint,
                              hL, hC, hI, hB, hD, hK, h1, h1b, h2]
                          · intro r
                            simp
                      | error e2 =>
                        simp [start_node, stepThen, make_rpc_endpoint,
                          hL, hC, hI, hB, hD, hK, h1, h1b] at hs
                    · simp [start_node, stepThen, make_rpc_endpoint,
                        hL, hC, hI, hB, hD, hK, h1, hee] at hs

/-- C5 (witness): with the preferred port 4919 occupied, the ephemeral
port 5000 is bound and is exactly the stored port; with every bind
denied, no port is ever stored during the launch. -/
theorem stored_port_is_bound_port_witness :
    (storePorts (make_rpc_endpoint envInUse 4919).2 = [5000] ∧
      boundPort envInUse 4919 5000) ∧
    storePorts (start_node envBindDenied 4919).2 = [] :=
  ⟨(stored_port_is_bound_port envInUse 4919).1 5000 (by decide),
   (stored_port_is_bound_port envBindDenied 4919).2.1 (by
      intro q h
      unfold boundPort at h
      rcases h with h | ⟨h, _⟩ <;> simp [envBindDenied] at h)⟩

/-- Elimination for a true Bool conjunction. -/
theorem bandE {a b : Bool} (h : (a && b) = true) : a = true ∧ b = true := by
  constructor <;> simp_all

/-- oleB is reflexive. -/
theorem oleB_refl (a : Option Nat) : oleB a a = true := by
  cases a <;> simp [oleB]

/-- oleB is total: if `a` does not complete by `b`, then `b` completes
by `a`. -/
theorem oleB_false (a b : Option Nat) (h : oleB a b = false) :
    oleB b a = true := by
  cases a <;> cases b
  all_goals revert h
  all_goals simp [oleB]
  all_goals omega

/-- C6: the shutdown race resolves exactly when one of its three
completion sources (interrupt, command task, node) completes, it
resolves to a source whose completion time is no later than every
other source's, and on simultaneous readiness the static priority
interrupt, then command task, then node decides. -/
theorem shutdown_race_first_with_priority (ti tc tn : Option Nat) :
    ((raceWinner ti tc tn).isSome ↔ (ti.isSome ∨ tc.isSome ∨ tn.isSome)) ∧
    (∀ w, raceWinner ti tc tn = some w →
       oleB (srcTime ti tc tn w) ti = true ∧
       oleB (srcTime ti tc tn w) tc = true ∧
       oleB (srcTime ti tc tn w) tn = true) ∧
    (∀ t, ti = some t → oleB ti tc = true → oleB ti tn = true →
       raceWinner ti tc tn = some RaceSource.interrupt) ∧
    (∀ t, tc = some t → oleB tc tn = true → oleB ti tc = false →
       raceWinner ti tc tn = some RaceSource.command) ∧
    (∀ t, tn = some t → oleB ti tn = false → oleB tc tn = false →
       raceWinner ti tc tn = some RaceSource.node) := by
  refine ⟨⟨?_, ?_⟩, ?_, ?_, ?_, ?_⟩
  · intro h
    by_cases c1 : (ti.isSome && oleB ti tc && oleB ti tn) = true
    · exact Or.inl (bandE (bandE c1).1).1
    · by_cases c2 : (tc.isSome && oleB tc ti && oleB tc tn) = true
      · exact Or.inr (Or.inl (bandE (bandE c2).1).1)
      · by_cases c3 : (tn.isSome && oleB tn ti && oleB tn tc) = true
        · exact Or.inr (Or.inr (bandE (bandE c3).1).1)
        · exfalso
          unfold raceWinner at h
          rw [if_neg c1, if_neg c2, if_neg c3] at h
          simp at h
  · intro h
    rcases ti with _ | a <;> rcases tc with _ | b <;> rcases tn with _ | c <;>
      simp [raceWinner, oleB] at h ⊢ <;> split_ifs <;> simp_all <;> omega
  · intro w hw
    unfold raceWinner at hw
    by_cases c1 : (ti.isSome && oleB ti tc && oleB ti tn) = true
    · rw [if_pos c1] at hw
      cases hw
      rcases bandE c1 with ⟨c12, c3⟩
      rcases bandE c12 with ⟨ca, cb⟩
      exact ⟨by simp [srcTime, oleB_refl], by simpa [srcTime] using cb,
        by simpa [srcTime] using c3⟩
    · rw [if_neg c1] at hw
      by_cases c2 : (tc.isSome && oleB tc ti && oleB tc tn) = true
      · rw [if_pos c2] at hw
        cases hw
        rcases bandE c2 with ⟨c12, c3⟩
        rcases bandE c12 with ⟨ca, cb⟩
        exact ⟨by simpa [srcTime] using cb, by simp [srcTime, oleB_refl],
          by simpa [srcTime] using c3⟩
      · rw [if_neg c2] at hw
        by_cases c3 : (tn.isSome && oleB tn ti && oleB tn tc) = true
        · rw [if_pos c3] at hw
          cases hw
          rcases bandE c3 with ⟨c12, cc⟩
          rcases bandE c12 with ⟨ca, cb⟩
          exact ⟨by simpa [srcTime] using cb, by simpa [srcTime] using cc,
            by simp [srcTime, oleB_refl]⟩
        · rw [if_neg c3] at hw
          exact Option.noConfusion hw
  · intro t ht h1 h2
    subst ht
    simp [raceWinner, h1, h2]
  · intro t ht h1 h2
    subst ht
    have h3 := oleB_false _ _ h2
    simp [raceWinner, h1, h2, h3]
  · intro t ht h1 h2
    subst ht
    have h3 := oleB_false _ _ h1
    have h4 := oleB_false _ _ h2
    simp [raceWinner, h1, h2, h3, h4]

/-- start_node reads no race-related field, so updating the
post-shutdown await result leaves it unchanged. -/
theorem start_node_nodeAwait_update (env : Env) (x : Except Error Unit) (p : Nat) :
    start_node { env with nodeAwaitAfterShutdown := x } p = start_node env p := rfl

/-- start_node reads no race-related field, so updating the interrupt
source leaves it unchanged. -/
theorem start_node_interrupt_update (env : Env)
    (y : Option (Nat × Except IoErrorKind Unit)) (p : Nat) :
    start_node { env with interruptResult := y } p = start_node env p := rfl

/-- C7: when the interrupt branch wins the race, the session performs,
in order, command-task abort, node shutdown request, node await, and
returns the node termination result (error or success) as the inner
session outcome. -/
theorem interrupt_branch_behavior (env : Env) (p : Nat) (rt : RunType)
    (hd : env.derpMap = Except.ok ())
    (hs : (start_node env p).1 = Except.ok ())
    (hw : raceWinner (interruptTime env)
        (commandTaskTime rt env.cmdTime env.cmdResult) env.nodeTime =
      some RaceSource.interrupt) :
    run_with_command_inner env p rt =
      (Outcome.result env.nodeAwaitAfterShutdown,
       (start_node env p).2 ++
         [Event.spawnCommandTask, Event.abortCommand, Event.shutdownNode,
          Event.awaitNode]) := by
  unfold run_with_command_inner
  simp [hd, hs, hw]

/-- C7 (witness): an interrupt at time 0 beats a command finishing at
time 5; the branch aborts the command, shuts the node down, awaits it
and returns its (successful) termination. -/
theorem interrupt_branch_behavior_witness :
    run_with_command_inner envInterrupt 4919 RunType.SingleCommand =
      (Outcome.result (Except.ok ()),
       (start_node envInterrupt 4919).2 ++
         [Event.spawnCommandTask, Event.abortCommand, Event.shutdownNode,
          Event.awaitNode]) :=
  interrupt_branch_behavior envInterrupt 4919 RunType.SingleCommand
    (by decide) (by decide) (by decide)

/-- C8: when the command-task branch wins the race, the session
requests node shutdown, awaits the node, and returns the command
task's own result as the inner session outcome — for every value of
the node's post-shutdown termination result, which is discarded. -/
theorem command_branch_behavior (env : Env) (p : Nat) (rt : RunType)
    (hd : env.derpMap = Except.ok ())
    (hs : (start_node env p).1 = Except.ok ())
    (hw : raceWinner (interruptTime env)
        (commandTaskTime rt env.cmdTime env.cmdResult) env.nodeTime =
      some RaceSource.command) :
    run_with_command_inner env p rt =
      (Outcome.result env.cmdResult,
       (start_node env p).2 ++
         [Event.spawnCommandTask, Event.shutdownNode, Event.awaitNode]) ∧
    (∀ x, run_with_command_inner env p rt =
       run_with_command_inner { env with nodeAwaitAfterShutdown := x } p rt) := by
  constructor
  · unfold run_with_command_inner
    simp [hd, hs, hw]
  · intro x
    have hsn := start_node_nodeAwait_update env x p
    have hti : interruptTime { env with nodeAwaitAfterShutdown := x } =
        interruptTime env := rfl
    unfold run_with_command_inner
    simp only [hsn, hti]
    simp [hd, hs, hw]

/-- C8 (witness): the command succeeds at time 1 and wins; even though
the node's post-shutdown await fails with error 9, the session outcome
is the command's success. -/
theorem command_branch_behavior_witness :
    run_with_command_inner envCmdNodeErr 4919 RunType.SingleCommand =
      (Outcome.result (Except.ok ()),
       (start_node envCmdNodeErr 4919).2 ++
         [Event.spawnCommandTask, Event.shutdownNode, Event.awaitNode]) :=
  (command_branch_behavior envCmdNodeErr 4919 RunType.SingleCommand
    (by decide) (by decide) (by decide)).1

/-- C9: the command task completes at the command's own completion
time with its error whenever the command fails, regardless of RunType;
after a successful command it never completes under `UntilStopped`,
and completes at the command's completion time under `SingleCommand`,
in which case its victory in the race ends the session successfully
through the command branch. -/
theorem command_task_runtype (ct : Option Nat) (cr : Except Error Unit) :
    (∀ rt e, cr = Except.error e → commandTaskTime rt ct cr = ct) ∧
    (cr = Except.ok () → commandTaskTime RunType.UntilStopped ct cr = none) ∧
    (cr = Except.ok () → commandTaskTime RunType.SingleCommand ct cr = ct) ∧
    (∀ env p t, env.derpMap = Except.ok () →
       (start_node env p).1 = Except.ok () →
       env.cmdResult = Except.ok () → env.cmdTime = some t →
       raceWinner (interruptTime env)
           (commandTaskTime RunType.SingleCommand env.cmdTime env.cmdResult)
           env.nodeTime = some RaceSource.command →
       (run_with_command_inner env p RunType.SingleCommand).1 =
         Outcome.result (Except.ok ())) := by
  refine ⟨?_, ?_, ?_, ?_⟩
  · intro rt e he
    subst he
    cases ct <;> cases rt <;> simp [commandTaskTime]
  · intro he
    subst he
    cases ct <;> simp [commandTaskTime]
  · intro he
    subst he
    cases ct <;> simp [commandTaskTime]
  · intro env p t hd hs hcr hct hw
    unfold run_with_command_inner
    simp only [hd, hs, hw]
    simp [hcr]

/-- C9 (witness): a command succeeding at time 2 completes the task at
time 2 under SingleCommand, never under UntilStopped; a command
failing at time 2 completes the task at time 2 even under
UntilStopped; and in the baseline environment the successful
single-command session ends successfully through the command branch. -/
theorem command_task_runtype_witness :
    commandTaskTime RunType.SingleCommand (some 2) (Except.ok ()) = some 2 ∧
    commandTaskTime RunType.UntilStopped (some 2) (Except.ok ()) = none ∧
    commandTaskTime RunType.UntilStopped (some 2) (Except.error (Error.external 5)) =
      some 2 ∧
    (run_with_command_inner envA 4919 RunType.SingleCommand).1 =
      Outcome.result (Except.ok ()) :=
  ⟨(command_task_runtype (some 2) (Except.ok ())).2.2.1 rfl,
   (command_task_runtype (some 2) (Except.ok ())).2.1 rfl,
   (command_task_runtype (some 2) (Except.error (Error.external 5))).1
      RunType.UntilStopped (Error.external 5) rfl,
   (command_task_runtype envA.cmdTime envA.cmdResult).2.2.2 envA 4919 1
      (by decide) (by decide) (by decide) (by decide) (by decide)⟩

/-- C10: when the ctrl_c wait resolves with a listener error, the
error is discarded and the interrupt branch still fires — abort,
shutdown request, node await, node termination result as outcome —
and the session behaves identically to one whose listener resolved
with a received interrupt at the same time; the listener error never
appears in the outcome. -/
theorem interrupt_listener_error_is_interrupt (env : Env) (p : Nat)
    (rt : RunType) (t : Nat) (e : IoErrorKind)
    (hd : env.derpMap = Except.ok ())
    (hs : (start_node env p).1 = Except.ok ())
    (hi : env.interruptResult = some (t, Except.error e))
    (hw : raceWinner (some t)
        (commandTaskTime rt env.cmdTime env.cmdResult) env.nodeTime =
      some RaceSource.interrupt) :
    run_with_command_inner env p rt =
      (Outcome.result env.nodeAwaitAfterShutdown,
       (start_node env p).2 ++
         [Event.spawnCommandTask, Event.abortCommand, Event.shutdownNode,
          Event.awaitNode]) ∧
    run_with_command_inner env p rt =
      run_with_command_inner
        { env with interruptResult := some (t, Except.ok ()) } p rt := by
  have hti : interruptTime env = some t := by simp [interruptTime, hi]
  have hti2 : interruptTime { env with interruptResult := some (t, Except.ok ()) } =
      some t := by simp [interruptTime]
  have hsn := start_node_interrupt_update env (some (t, Except.ok ())) p
  constructor
  · unfold run_with_command_inner
    simp [hd, hs, hti, hw]
  · unfold run_with_command_inner
    simp only [hsn, hti2]
    simp [hd, hs, hti, hw]

/-- C10 (witness): the listener fails at time 0 with error kind
`other 3`; the session aborts the command, shuts down and awaits the
node, returns the node's successful termination, and equals the run
of the same environment with a genuinely received interrupt. -/
theorem interrupt_listener_error_is_interrupt_witness :
    run_with_command_inner envInterruptErr 4919 RunType.SingleCommand =
      (Outcome.result (Except.ok ()),
       (start_node envInterruptErr 4919).2 ++
         [Event.spawnCommandTask, Event.abortCommand, Event.shutdownNode,
          Event.awaitNode]) ∧
    run_with_command_inner envInterruptErr 4919 RunType.SingleCommand =
      run_with_command_inner envInterrupt 4919 RunType.SingleCommand :=
  interrupt_listener_error_is_interrupt envInterruptErr 4919
    RunType.SingleCommand 0 (IoErrorKind.other 3)
    (by decide) (by decide) (by decide) (by decide)

/-- C6 (witness): with interrupt and command both ready at time 3 and
the node at time 5, the interrupt wins; with only command and node
ready, both at time 3, the command wins; a lone node completion at
time 2 wins. -/
theorem shutdown_race_first_with_priority_witness :
    raceWinner (some 3) (some 3) (some 5) = some RaceSource.interrupt ∧
    raceWinner none (some 3) (some 3) = some RaceSource.command ∧
    raceWinner none none (some 2) = some RaceSource.node :=
  ⟨(shutdown_race_first_with_priority (some 3) (some 3) (some 5)).2.2.1
      3 rfl (by decide) (by decide),
   (shutdown_race_first_with_priority none (some 3) (some 3)).2.2.2.1
      3 rfl (by decide) (by decide),
   (shutdown_race_first_with_priority none none (some 2)).2.2.2.2
      2 rfl (by decide) (by decide)⟩
